import Mathlib

/-!
Shallow embedding of the pyetf extraction layer
(`pyetf/_etfdb_client.py` and `pyetf/_etfdb_scraper.py`), together with
theorems settling the spec claims about it.

Python dictionaries with string keys are modelled as association lists
(`Dict`): `dinsert` is the per-key semantics of `dict.__setitem__`
(replace in place, else append), `dupdate` is `dict.update`, `dpop` is
`dict.pop`, and `dlookup` is key lookup.  Python exceptions are modelled
by the `Except` monad over the `PyErr` type; a `try/except` clause is a
`match` on that monad.
-/

namespace Pyetf

/-- Python `str.upper()`: uppercase the string character by character (the
tickers involved are ASCII). -/
def py_upper (s : String) : String :=
  ⟨s.data.map Char.toUpper⟩

/-- Python `str.startswith(pre)`: the characters of `pre` are a prefix of the
characters of `s`. -/
def py_startswith (s pre : String) : Bool :=
  pre.data.isPrefixOf s.data

/-- Python exception classes relevant to the embedded code. -/
inductive PyErr where
  | typeError
  | keyError
  | attributeError
  | indexError
  deriving DecidableEq, Repr

/-- A Python `dict` with string keys, as an association list in insertion order. -/
abbrev Dict := List (String × String)

/-- Lookup of a key: the first binding wins (keys are unique in a real `dict`). -/
def dlookup : Dict → String → Option String
  | [], _ => none
  | p :: tl, k => if p.1 = k then some p.2 else dlookup tl k

/-- `d[k] = v` on a Python dict: replace the existing binding in place, else append. -/
def dinsert : Dict → String → String → Dict
  | [], k, v => [(k, v)]
  | p :: tl, k, v => if p.1 = k then (k, v) :: tl else p :: dinsert tl k v

/-- `d.update(e)` on Python dicts: insert every binding of `e` into `d`, in order. -/
def dupdate (d e : Dict) : Dict :=
  e.foldl (fun acc p => dinsert acc p.1 p.2) d

/-- `d.pop(k)`: remove the binding of `k` if present. -/
def dpop : Dict → String → Dict
  | [], _ => []
  | p :: tl, k => if p.1 = k then dpop tl k else p :: dpop tl k

/-- The last binding of `k` in an association list (what survives a `dict.update`). -/
def dlookupLast : Dict → String → Option String
  | [], _ => none
  | p :: tl, k =>
    match dlookupLast tl k with
    | some v => some v
    | none => if p.1 = k then some p.2 else none

/-! ## The document model used by `_basic_info` (from `pyetf/_etfdb_client.py`) -/

/-- An `a` tag found by `find("a")`: `href` is `none` when the attribute is
missing, in which case subscripting the tag raises `KeyError`. -/
structure AnchorTag where
  href : Option String
  deriving DecidableEq, Repr

/-- The value cell of a ticker-body row (`row.select_one(":nth-child(2)")`):
`anchor` is the result of `value.find("a")` (`none` models the Python `None`,
on which subscripting raises `TypeError`), `text` is `value.text`. -/
structure RowCell where
  anchor : Option AnchorTag
  text : String
  deriving DecidableEq, Repr

/-- The `try/except (KeyError, TypeError)` block of `_basic_info` that resolves
one row value: take the href of the value cell anchor; a truthy href for a key
other than "ETF Home Page" is made absolute with the base url; a missing anchor
(`TypeError`) or missing href attribute (`KeyError`) falls back to the trimmed
cell text. -/
def basic_info_value_text (baseUrl key : String) (v : RowCell) : String :=
  match v.anchor with
  | none => v.text.trim
  | some a =>
    match a.href with
    | none => v.text.trim
    | some href =>
      if href ≠ "" ∧ key ≠ "ETF Home Page" then baseUrl ++ href else href

/-- The value of one ticker-body row as stored by `_basic_info`, including the
dead rewrite branch: for the "ETF Home Page" key with a value starting with the
base url, `value_text.replace(self._base_url, "")` is computed but its result
is discarded, so the original value is stored. -/
def basic_info_stored (baseUrl key : String) (v : RowCell) : String :=
  let value_text := basic_info_value_text baseUrl key v
  if key = "ETF Home Page" ∧ py_startswith value_text baseUrl then
    let _rewritten := value_text.replace baseUrl ""
    value_text
  else
    value_text

/-- The sequence of `basic_information.update(...)` calls in `_basic_info`:
ticker-body basics, then profile-container, then valuation, then trading data,
then asset categories, then classification. -/
def merge_sections (basics profile valuation trading assets classification : Dict) : Dict :=
  dupdate (dupdate (dupdate (dupdate (dupdate basics profile) valuation) trading)
    assets) classification

/-- `_basic_info`: start from `{"Symbol": ticker, "Url": ticker_url}`, store one
value per ticker-body row, merge the five extractor outputs in the canonical
order, and pop the "Analyst Report" key if present.  The extractor outputs are
passed in as the dictionaries they produced on the document. -/
def basic_info (baseUrl ticker tickerUrl : String) (rows : List (String × RowCell))
    (profile valuation trading assets classification : Dict) : Dict :=
  let basics := rows.foldl
    (fun acc r => dinsert acc r.1 (basic_info_stored baseUrl r.1 r.2))
    [("Symbol", ticker), ("Url", tickerUrl)]
  dpop (merge_sections basics profile valuation trading assets classification)
    "Analyst Report"

/-! ## Ticker resolution (`ETFDBClient.__init__` / `get_available_etfs_list`) -/

/-- One entry of the static catalog file `data/etfs/etfs_list.json`. -/
structure CatalogEntry where
  symbol : String
  deriving DecidableEq, Repr

/-- `get_available_etfs_list`: the `symbol` field of every catalog entry. -/
def get_available_etfs_list (data : List CatalogEntry) : List String :=
  data.map (fun e => e.symbol)

/-- `InvalidETFException`, raised with a message naming the offending ticker
(in the source, the message interpolates the ticker into a fixed sentence); we
model the exception as carrying that ticker. -/
inductive ClientErr where
  | invalidETF (ticker : String)
  deriving DecidableEq, Repr

/-- The resolution part of `ETFDBClient.__init__`: if the uppercased ticker is
in the available list, keep the uppercase ticker and build its detail-page url;
otherwise raise `InvalidETFException` naming the ticker. -/
def etfdb_client_resolve (data : List CatalogEntry) (baseUrl ticker : String) :
    Except ClientErr (String × String) :=
  if py_upper ticker ∈ get_available_etfs_list data then
    .ok (py_upper ticker, baseUrl ++ "/etf/" ++ py_upper ticker)
  else
    .error (.invalidETF ticker)

/-! ## Asset categories (`_asset_categories`) -/

/-- Modelled from the spec: `handle_find_all_rows` lives in `pyetf.utils`,
which is not among the provided sources.  Per the spec (section 4.3) the
asset-categories extractor turns the rows of a ticker-assets block into a
category map; we model the helper as building a map from the rows' label and
value pairs. -/
def handle_find_all_rows (rows : List (String × String)) : Dict :=
  rows.foldl (fun acc p => dinsert acc p.1 p.2) []

/-- `_asset_categories`: find the "ticker-assets" blocks in the ticker body
(each block given by its rows); return `{}` when the guard
`not theme or len(theme) < 1` fires, else read `theme[1]` — an out-of-range
access (`IndexError`) when fewer than two blocks exist. -/
def asset_categories (blocks : List (List (String × String))) : Except PyErr Dict :=
  if blocks.isEmpty ∨ blocks.length < 1 then .ok []
  else
    match blocks.get? 1 with
    | none => .error .indexError
    | some rows => .ok (handle_find_all_rows rows)

/-! ## Holdings extraction (`_holdings`) -/

/-- One `tr` of the holdings table body: `cells` are the `td` texts, `anchor`
is the result of `record.find("a")`. -/
structure HoldingRow where
  cells : List String
  anchor : Option AnchorTag
  deriving DecidableEq, Repr

/-- The holdings section (`div` with id `holding_section`): `tbody` is `none`
when the table body is structurally absent, else the list of rows. -/
structure HoldingSection where
  tbody : Option (List HoldingRow)
  deriving DecidableEq, Repr

/-- The inner `try/except TypeError` of `_holdings`: build the holding url from
the row anchor.  A missing anchor raises `TypeError` (subscripting `None`),
which is caught and yields the empty string; an anchor without an `href`
attribute raises `KeyError`, which is not caught there. -/
def holding_url (baseUrl : String) (r : HoldingRow) : Except PyErr String :=
  match r.anchor with
  | none => .ok ""
  | some a =>
    match a.href with
    | none => .error .keyError
    | some h => .ok (baseUrl ++ h)

/-- One holdings-table row turned into a record:
`dict(zip(["Symbol", "Holding", "Share"], cell_texts))` followed by
`texts.update({"Url": holding_url})`. -/
def holding_entry (baseUrl : String) (r : HoldingRow) : Except PyErr Dict :=
  match holding_url baseUrl r with
  | .error e => .error e
  | .ok url => .ok (List.zip ["Symbol", "Holding", "Share"] r.cells ++ [("Url", url)])

/-- The holdings-list part of `_holdings`: the outer `try/except AttributeError`
yields `[]` when the holdings section or its `tbody` is absent (attribute
access on `None`), else every row is turned into an entry. -/
def holdings_results (baseUrl : String) (sec : Option HoldingSection) :
    Except PyErr (List Dict) :=
  match sec with
  | none => .ok []
  | some s =>
    match s.tbody with
    | none => .ok []
    | some rows => rows.mapM (holding_entry baseUrl)

/-! ## Catalog scraper (`pyetf/_etfdb_scraper.py`) -/

/-- The nested `symbol` object of one raw API row; either field may be absent. -/
structure SymbolField where
  text : Option String
  url : Option String
  deriving DecidableEq, Repr

/-- The nested `name` object of one raw API row. -/
structure NameField where
  text : Option String
  deriving DecidableEq, Repr

/-- One raw row of the catalog API response; every field may be absent
(`obj.get` returns `None` or, for the nested objects, a default `{}`). -/
structure RawRow where
  symbol : Option SymbolField
  name : Option NameField
  one_week_return : Option String
  ytd : Option String
  three_ytd : Option String
  five_ytd : Option String
  deriving DecidableEq, Repr

/-- The flat record produced by `_parse_etf_record`. -/
structure CatalogRecord where
  symbol : Option String
  name : Option String
  url : String
  one_week_return : Option String
  one_year_return : Option String
  three_year_return : Option String
  five_year_return : Option String
  deriving DecidableEq, Repr

/-- Python string concatenation `a + b` where `b` may be `None`:
concatenating with `None` raises `TypeError`. -/
def pyStrAdd (a : String) (b : Option String) : Except PyErr String :=
  match b with
  | none => .error .typeError
  | some s => .ok (a ++ s)

/-- `_parse_etf_record`: each field is read with `.get` (absent gives `None`,
absent nested object gives `{}`), and the url is built by concatenating the
base url with `obj.get("symbol", {}).get("url")`. -/
def parse_etf_record (baseUrl : String) (obj : RawRow) : Except PyErr CatalogRecord :=
  let sym := obj.symbol.getD ⟨none, none⟩
  let nm := obj.name.getD ⟨none⟩
  match pyStrAdd baseUrl sym.url with
  | .error e => .error e
  | .ok u =>
    .ok ⟨sym.text, nm.text, u, obj.one_week_return, obj.ytd, obj.three_ytd,
      obj.five_ytd⟩

/-- `list(self._prepare_etfs_list(etfs))`: parse every row of one page; an
exception from any row propagates. -/
def prepare_etfs_list (baseUrl : String) (etfs : List RawRow) :
    Except PyErr (List CatalogRecord) :=
  etfs.mapM (parse_etf_record baseUrl)

/-- A transport failure of `post_request` (`requests` connection or timeout). -/
inductive TransportErr where
  | connectionError
  | timeout
  deriving DecidableEq, Repr

/-- The parsed JSON body of a page response: `dataField` is `none` when the
`"data"` key is missing (subscripting raises `KeyError`). -/
structure JsonBody where
  dataField : Option (List RawRow)
  deriving DecidableEq, Repr

/-- A page response object: `jsonBody` is `none` when the response cannot be
read as JSON attribute-wise (`AttributeError`). -/
structure PageResponse where
  jsonBody : Option JsonBody
  deriving DecidableEq, Repr

/-- `_scrape_page`: `self.post_request(request_body).json()["data"]` with
`except (ConnectionError, Timeout)` and `except (AttributeError, KeyError)`
both logging and falling through to `return []`. -/
def scrape_page (post : Except TransportErr PageResponse) : List RawRow :=
  match post with
  | .error _ => []
  | .ok resp =>
    match resp.jsonBody with
    | none => []
    | some j =>
      match j.dataField with
      | none => []
      | some d => d

/-- `get_etfs`, instrumented with fuel and a trace: starting from `page`, fetch
via `_scrape_page`, stop at the first empty page, else yield the page parsed by
`_prepare_etfs_list` and move to the next page.  The first component is the
list of yielded pages (or the propagated parse error), the second is the list
of page numbers actually fetched. -/
def get_etfs_run (baseUrl : String) (post : Nat → Except TransportErr PageResponse) :
    Nat → Nat → Except PyErr (List (List CatalogRecord)) × List Nat
  | 0, _ => (.ok [], [])
  | fuel + 1, page =>
    let etfs := scrape_page (post page)
    if etfs.isEmpty then (.ok [], [page])
    else
      match prepare_etfs_list baseUrl etfs with
      | .error e => (.error e, [page])
      | .ok recs =>
        let r := get_etfs_run baseUrl post fuel (page + 1)
        (r.1.map (fun rest => recs :: rest), page :: r.2)

/-- A two-page catalog API used to exercise the pagination driver: page 1
holds one well-formed row, every later page is empty. -/
def sample_post : Nat → Except TransportErr PageResponse :=
  fun p =>
    if p = 1 then
      .ok ⟨some ⟨some [⟨some ⟨some "SPY", some "/etf/SPY"⟩, some ⟨some "SPDR"⟩,
        none, none, none, none⟩]⟩⟩
    else
      .ok ⟨some ⟨some []⟩⟩

/-! ## Lemmas about the dict model -/

theorem dlookup_dinsert (d : Dict) (a b k : String) :
    dlookup (dinsert d a b) k = if k = a then some b else dlookup d k := by
  induction d with
  | nil =>
    by_cases h : k = a
    · simp [dinsert, dlookup, h]
    · have hak : ¬ a = k := fun hc => h (Eq.symm hc)
      simp [dinsert, dlookup, h, hak]
  | cons p tl ih =>
    by_cases hpa : p.1 = a
    · by_cases hka : k = a
      · simp [dinsert, dlookup, hpa, hka]
      · have hak : ¬ a = k := fun hc => hka (Eq.symm hc)
        simp [dinsert, dlookup, hpa, hka, hak]
    · by_cases hpk : p.1 = k
      · have hka : ¬ k = a := fun hc => hpa (by rw [hpk, hc])
        simp [dinsert, dlookup, hpa, hpk, hka]
      · simp [dinsert, dlookup, hpa, hpk, ih]

theorem dlookup_dupdate (d e : Dict) (k : String) :
    dlookup (dupdate d e) k =
      match dlookupLast e k with
      | some v => some v
      | none => dlookup d k := by
  induction e generalizing d with
  | nil => simp [dupdate, dlookupLast]
  | cons p tl ih =>
    show dlookup (dupdate (dinsert d p.1 p.2) tl) k = _
    rw [ih]
    cases htl : dlookupLast tl k with
    | some v => simp [dlookupLast, htl]
    | none =>
      rw [dlookup_dinsert]
      by_cases hk : k = p.1
      · subst hk
        simp [dlookupLast, htl]
      · have hpk : ¬ p.1 = k := fun hc => hk (Eq.symm hc)
        simp [dlookupLast, htl, hk, hpk]

theorem isSome_dlookup_dupdate (d e : Dict) (k : String)
    (h : (dlookup d k).isSome) : (dlookup (dupdate d e) k).isSome := by
  rw [dlookup_dupdate]
  cases he : dlookupLast e k <;> simp [h]

theorem dlookup_dpop_self (d : Dict) (k : String) : dlookup (dpop d k) k = none := by
  induction d with
  | nil => rfl
  | cons p tl ih =>
    by_cases h : p.1 = k
    · simpa [dpop, h] using ih
    · simpa [dpop, h, dlookup] using ih

theorem dlookup_dpop_ne (d : Dict) (k k' : String) (h : k' ≠ k) :
    dlookup (dpop d k) k' = dlookup d k' := by
  induction d with
  | nil => rfl
  | cons p tl ih =>
    by_cases hpk : p.1 = k
    · have hkk' : ¬ k = k' := fun hc => h (Eq.symm hc)
      simpa [dpop, hpk, dlookup, hkk'] using ih
    · by_cases hpk' : p.1 = k'
      · simp [dpop, hpk, dlookup, hpk', h]
      · simpa [dpop, hpk, dlookup, hpk'] using ih

theorem dlookup_append_right (l1 l2 : Dict) (k : String)
    (h : dlookup l1 k = none) : dlookup (l1 ++ l2) k = dlookup l2 k := by
  induction l1 with
  | nil => rfl
  | cons p tl ih =>
    by_cases hpk : p.1 = k
    · simp [dlookup, hpk] at h
    · simp [dlookup, hpk] at h ⊢
      exact ih h

/-- The "Url" key never occurs among the zipped Symbol/Holding/Share bindings. -/
theorem dlookup_zip_labels (cs : List String) :
    dlookup (List.zip ["Symbol", "Holding", "Share"] cs) "Url" = none := by
  match cs with
  | [] => rfl
  | [a] => rfl
  | [a, b] => rfl
  | a :: b :: c :: _ => rfl

/-- Folding row insertions over a dict preserves the presence of any key. -/
theorem isSome_dlookup_foldl_dinsert (f : String → RowCell → String) (k : String) :
    ∀ (rows : List (String × RowCell)) (acc : Dict), (dlookup acc k).isSome →
      (dlookup (rows.foldl (fun a r => dinsert a r.1 (f r.1 r.2)) acc) k).isSome := by
  intro rows
  induction rows with
  | nil => exact fun acc h => h
  | cons r tl ih =>
    intro acc h
    apply ih
    rw [dlookup_dinsert]
    by_cases hk : k = r.1 <;> simp [hk, h]

/-- A page number is only ever fetched by the driver when every page between
the start page and it produced a nonempty fetch. -/
theorem get_etfs_run_trace_bound (baseUrl : String)
    (post : Nat → Except TransportErr PageResponse) :
    ∀ (fuel page q : Nat), q ∈ (get_etfs_run baseUrl post fuel page).2 →
      ∀ r, page ≤ r → r < q → scrape_page (post r) ≠ [] := by
  intro fuel
  induction fuel with
  | zero =>
    intro page q hq
    simp [get_etfs_run] at hq
  | succ n ih =>
    intro page q hq r hpr hrq
    unfold get_etfs_run at hq
    by_cases he : (scrape_page (post page)).isEmpty
    · simp [he] at hq
      subst hq
      omega
    · simp only [he] at hq
      cases hp : prepare_etfs_list baseUrl (scrape_page (post page)) with
      | error e =>
        rw [hp] at hq
        simp at hq
        subst hq
        omega
      | ok recs =>
        rw [hp] at hq
        simp at hq
        cases hq with
        | inl h =>
          subst h
          omega
        | inr h =>
          rcases Nat.eq_or_lt_of_le hpr with heq | hlt
          · subst heq
            intro hc
            rw [hc] at he
            exact he rfl
          · exact ih (page + 1) q h r hlt hrq

/-! ## Claim theorems -/

/-- Claim C4: a ticker whose uppercase form is not in the preloaded
valid-symbol catalog is rejected with an `InvalidETFException` naming the
offending ticker; a ticker whose uppercase form is in the catalog, in whatever
letter case it was written, resolves to the uppercase ticker together with its
canonical detail-page url. -/
theorem ticker_resolution (data : List CatalogEntry) (baseUrl ticker : String) :
    (py_upper ticker ∉ get_available_etfs_list data →
      etfdb_client_resolve data baseUrl ticker = .error (.invalidETF ticker)) ∧
    (py_upper ticker ∈ get_available_etfs_list data →
      etfdb_client_resolve data baseUrl ticker =
        .ok (py_upper ticker, baseUrl ++ "/etf/" ++ py_upper ticker)) := by
  constructor <;> intro h <;> simp [etfdb_client_resolve, h]

theorem ticker_resolution_witness :
    (py_upper "spy" ∈ get_available_etfs_list [⟨"SPY"⟩] ∧
      etfdb_client_resolve [⟨"SPY"⟩] "https://etfdb.com" "spy" =
        .ok (py_upper "spy", "https://etfdb.com" ++ "/etf/" ++ py_upper "spy")) ∧
    (py_upper "QQQ" ∉ get_available_etfs_list [⟨"SPY"⟩] ∧
      etfdb_client_resolve [⟨"SPY"⟩] "https://etfdb.com" "QQQ" =
        .error (.invalidETF "QQQ")) :=
  ⟨⟨by decide, (ticker_resolution [⟨"SPY"⟩] "https://etfdb.com" "spy").2 (by decide)⟩,
   ⟨by decide, (ticker_resolution [⟨"SPY"⟩] "https://etfdb.com" "QQQ").1 (by decide)⟩⟩

/-- Claim C5: a catalog page fetch on which the transport collaborator raises
a connection or timeout error, or whose response is malformed (no readable
JSON body, or no "data" key), returns the empty list without propagating the
failure; a well-formed response yields exactly its "data" array. -/
theorem scrape_page_absorbs_failures (e : TransportErr) (r : PageResponse)
    (j : JsonBody) (d : List RawRow) :
    (scrape_page (.error e) = []) ∧
    (r.jsonBody = none → scrape_page (.ok r) = []) ∧
    (r.jsonBody = some j → j.dataField = none → scrape_page (.ok r) = []) ∧
    (r.jsonBody = some j → j.dataField = some d → scrape_page (.ok r) = d) :=
  ⟨rfl,
   fun h => by simp [scrape_page, h],
   fun h1 h2 => by simp [scrape_page, h1, h2],
   fun h1 h2 => by simp [scrape_page, h1, h2]⟩

theorem scrape_page_absorbs_failures_witness :
    scrape_page (.error .timeout) = [] ∧
    scrape_page (.ok ⟨none⟩) = [] ∧
    scrape_page (.ok ⟨some ⟨none⟩⟩) = [] ∧
    scrape_page (.ok ⟨some ⟨some [⟨none, none, none, none, none, none⟩]⟩⟩) =
      [⟨none, none, none, none, none, none⟩] :=
  ⟨(scrape_page_absorbs_failures .timeout ⟨none⟩ ⟨none⟩ []).1,
   (scrape_page_absorbs_failures .timeout ⟨none⟩ ⟨none⟩ []).2.1 rfl,
   (scrape_page_absorbs_failures .timeout ⟨some ⟨none⟩⟩ ⟨none⟩ []).2.2.1 rfl rfl,
   (scrape_page_absorbs_failures .timeout ⟨some ⟨some [⟨none, none, none, none,
     none, none⟩]⟩⟩ ⟨some [⟨none, none, none, none, none, none⟩]⟩
     [⟨none, none, none, none, none, none⟩]).2.2.2 rfl rfl⟩

/-- Claim C6: on a document whose holdings section is structurally absent, or
present but without a table body, holdings-list extraction returns the empty
list instead of raising. -/
theorem holdings_absent_gives_empty (baseUrl : String) (sec : Option HoldingSection) :
    (sec = none → holdings_results baseUrl sec = .ok []) ∧
    (∀ s : HoldingSection, sec = some s → s.tbody = none →
      holdings_results baseUrl sec = .ok []) :=
  ⟨fun h => by simp [holdings_results, h],
   fun s hs ht => by simp [holdings_results, hs, ht]⟩

theorem holdings_absent_gives_empty_witness :
    holdings_results "https://etfdb.com" none = .ok [] ∧
    holdings_results "https://etfdb.com" (some ⟨none⟩) = .ok [] :=
  ⟨(holdings_absent_gives_empty "https://etfdb.com" none).1 rfl,
   (holdings_absent_gives_empty "https://etfdb.com" (some ⟨none⟩)).2 ⟨none⟩ rfl rfl⟩

/-- Claim C8: for a ticker-body row whose resolved key is exactly
"ETF Home Page" and whose resolved value starts with the base url, the stored
value is the resolved value unchanged — the rewrite branch computes a replaced
string but never uses it. -/
theorem home_page_value_not_rewritten (baseUrl key : String) (v : RowCell)
    (_hkey : key = "ETF Home Page")
    (_hstart : py_startswith (basic_info_value_text baseUrl key v) baseUrl = true) :
    basic_info_stored baseUrl key v = basic_info_value_text baseUrl key v := by
  show (if key = "ETF Home Page" ∧
        py_startswith (basic_info_value_text baseUrl key v) baseUrl = true
      then basic_info_value_text baseUrl key v
      else basic_info_value_text baseUrl key v) =
    basic_info_value_text baseUrl key v
  exact ite_self _

theorem home_page_value_not_rewritten_witness :
    ("ETF Home Page" : String) = "ETF Home Page" ∧
    py_startswith (basic_info_value_text "https://etfdb.com" "ETF Home Page"
      ⟨some ⟨some "https://etfdb.com"⟩, ""⟩) "https://etfdb.com" = true ∧
    basic_info_stored "https://etfdb.com" "ETF Home Page"
        ⟨some ⟨some "https://etfdb.com"⟩, ""⟩ =
      basic_info_value_text "https://etfdb.com" "ETF Home Page"
        ⟨some ⟨some "https://etfdb.com"⟩, ""⟩ :=
  ⟨rfl, by decide,
   home_page_value_not_rewritten "https://etfdb.com" "ETF Home Page"
     ⟨some ⟨some "https://etfdb.com"⟩, ""⟩ rfl (by decide)⟩

/-- Claim C9: every holdings-row record that the extractor produces carries a
"Url" binding, and for a row with no link that binding is the empty string. -/
theorem holding_entry_url (baseUrl : String) (r : HoldingRow) :
    (∀ e : Dict, holding_entry baseUrl r = .ok e → (dlookup e "Url").isSome) ∧
    (r.anchor = none →
      holding_entry baseUrl r =
        .ok (List.zip ["Symbol", "Holding", "Share"] r.cells ++ [("Url", "")]) ∧
      dlookup (List.zip ["Symbol", "Holding", "Share"] r.cells ++ [("Url", "")])
        "Url" = some "") := by
  constructor
  · intro e he
    unfold holding_entry at he
    cases hu : holding_url baseUrl r with
    | error err => simp [hu] at he
    | ok u =>
      simp [hu] at he
      rw [← he, dlookup_append_right _ _ _ (dlookup_zip_labels r.cells)]
      simp [dlookup]
  · intro ha
    have h1 : holding_entry baseUrl r =
        .ok (List.zip ["Symbol", "Holding", "Share"] r.cells ++ [("Url", "")]) := by
      unfold holding_entry holding_url
      rw [ha]
    refine ⟨h1, ?_⟩
    rw [dlookup_append_right _ _ _ (dlookup_zip_labels r.cells)]
    simp [dlookup]

theorem holding_entry_url_witness :
    (⟨["AAPL", "Apple Inc", "5.1%"], none⟩ : HoldingRow).anchor = none ∧
    holding_entry "https://etfdb.com" ⟨["AAPL", "Apple Inc", "5.1%"], none⟩ =
      .ok (List.zip ["Symbol", "Holding", "Share"] ["AAPL", "Apple Inc", "5.1%"]
        ++ [("Url", "")]) ∧
    dlookup (List.zip ["Symbol", "Holding", "Share"] ["AAPL", "Apple Inc", "5.1%"]
      ++ [("Url", "")]) "Url" = some "" ∧
    (dlookup (List.zip ["Symbol", "Holding", "Share"] ["AAPL", "Apple Inc", "5.1%"]
      ++ [("Url", "")]) "Url").isSome :=
  ⟨rfl,
   ((holding_entry_url "https://etfdb.com" ⟨["AAPL", "Apple Inc", "5.1%"], none⟩).2 rfl).1,
   ((holding_entry_url "https://etfdb.com" ⟨["AAPL", "Apple Inc", "5.1%"], none⟩).2 rfl).2,
   (holding_entry_url "https://etfdb.com" ⟨["AAPL", "Apple Inc", "5.1%"], none⟩).1 _
     ((holding_entry_url "https://etfdb.com" ⟨["AAPL", "Apple Inc", "5.1%"], none⟩).2 rfl).1⟩

/-- Claim C10: when the ticker body holds exactly one "ticker-assets" block,
the asset-categories extractor raises `IndexError` instead of returning an
empty map: the guard only rejects fewer than one block while the body reads the
second block. -/
theorem asset_categories_single_block (blocks : List (List (String × String)))
    (h : blocks.length = 1) : asset_categories blocks = .error .indexError := by
  match blocks, h with
  | [b], _ => simp [asset_categories, List.get?]

theorem asset_categories_single_block_witness :
    ([[("Asset Class", "Equity")]] : List (List (String × String))).length = 1 ∧
    asset_categories [[("Asset Class", "Equity")]] = .error .indexError :=
  ⟨rfl, asset_categories_single_block [[("Asset Class", "Equity")]] rfl⟩

/-- Claim C2 counterexample: normalizing a raw catalog row with no symbol
object does not produce a record with absent values — the url construction
concatenates the base url with a missing `symbol.url` and raises `TypeError`. -/
theorem parse_etf_record_missing_url_raises :
    parse_etf_record "https://etfdb.com" ⟨none, none, none, none, none, none⟩ =
      .error .typeError := rfl

/-- Claim C2 (amended): for every raw catalog row whose nested `symbol.url`
field is present, normalization succeeds and every other missing upstream
field (including the nested `symbol.text` and `name.text`) yields an absent
value in the record; a row missing `symbol.url` instead raises `TypeError`
from the url concatenation. -/
theorem parse_etf_record_tolerates_missing (baseUrl : String) (obj : RawRow)
    (u : String) (h : (obj.symbol.getD ⟨none, none⟩).url = some u) :
    parse_etf_record baseUrl obj =
      .ok ⟨(obj.symbol.getD ⟨none, none⟩).text, (obj.name.getD ⟨none⟩).text,
        baseUrl ++ u, obj.one_week_return, obj.ytd, obj.three_ytd,
        obj.five_ytd⟩ := by
  simp only [parse_etf_record, pyStrAdd, h]

theorem parse_etf_record_tolerates_missing_witness :
    (((some (⟨none, some "/etf/SPY"⟩ : SymbolField)).getD ⟨none, none⟩).url
      = some "/etf/SPY") ∧
    parse_etf_record "https://etfdb.com"
        ⟨some ⟨none, some "/etf/SPY"⟩, none, none, none, none, none⟩ =
      .ok ⟨none, none, "https://etfdb.com" ++ "/etf/SPY", none, none, none, none⟩ :=
  ⟨rfl, parse_etf_record_tolerates_missing "https://etfdb.com"
    ⟨some ⟨none, some "/etf/SPY"⟩, none, none, none, none, none⟩ "/etf/SPY" rfl⟩

/-- Claim C1: in the assembler merge, a key emitted by several section records
ends up with the value of the record latest in the canonical order — the
merged map resolves a key through classification, then asset categories, then
trading data, then valuation, then profile, and only then the ticker-body
basics. -/
theorem merge_precedence (basics profile valuation trading assets classification : Dict)
    (k v : String) :
    (dlookupLast classification k = some v →
      dlookup (merge_sections basics profile valuation trading assets classification)
        k = some v) ∧
    (dlookupLast classification k = none → dlookupLast assets k = some v →
      dlookup (merge_sections basics profile valuation trading assets classification)
        k = some v) ∧
    (dlookupLast classification k = none → dlookupLast assets k = none →
      dlookupLast trading k = some v →
      dlookup (merge_sections basics profile valuation trading assets classification)
        k = some v) ∧
    (dlookupLast classification k = none → dlookupLast assets k = none →
      dlookupLast trading k = none → dlookupLast valuation k = some v →
      dlookup (merge_sections basics profile valuation trading assets classification)
        k = some v) ∧
    (dlookupLast classification k = none → dlookupLast assets k = none →
      dlookupLast trading k = none → dlookupLast valuation k = none →
      dlookupLast profile k = some v →
      dlookup (merge_sections basics profile valuation trading assets classification)
        k = some v) ∧
    (dlookupLast classification k = none → dlookupLast assets k = none →
      dlookupLast trading k = none → dlookupLast valuation k = none →
      dlookupLast profile k = none →
      dlookup (merge_sections basics profile valuation trading assets classification)
        k = dlookup basics k) := by
  have H : dlookup (merge_sections basics profile valuation trading assets classification) k =
      match dlookupLast classification k with
      | some v => some v
      | none =>
        match dlookupLast assets k with
        | some v => some v
        | none =>
          match dlookupLast trading k with
          | some v => some v
          | none =>
            match dlookupLast valuation k with
            | some v => some v
            | none =>
              match dlookupLast profile k with
              | some v => some v
              | none => dlookup basics k := by
    unfold merge_sections
    rw [dlookup_dupdate, dlookup_dupdate, dlookup_dupdate, dlookup_dupdate,
      dlookup_dupdate]
  refine ⟨?_, ?_, ?_, ?_, ?_, ?_⟩
  · intro h1
    rw [H, h1]
  · intro h1 h2
    rw [H, h1, h2]
  · intro h1 h2 h3
    rw [H, h1, h2, h3]
  · intro h1 h2 h3 h4
    rw [H, h1, h2, h3, h4]
  · intro h1 h2 h3 h4 h5
    rw [H, h1, h2, h3, h4, h5]
  · intro h1 h2 h3 h4 h5
    rw [H, h1, h2, h3, h4, h5]

theorem merge_precedence_witness :
    (dlookupLast [("Category", "Size and Style")] "Category" = some "Size and Style" ∧
      dlookup (merge_sections [("Category", "Basics")] [] [] [] []
        [("Category", "Size and Style")]) "Category" = some "Size and Style") ∧
    (dlookupLast ([] : Dict) "Category" = none ∧
      dlookupLast [("Category", "Assets")] "Category" = some "Assets" ∧
      dlookup (merge_sections [("Category", "Basics")] [] [] []
        [("Category", "Assets")] []) "Category" = some "Assets") :=
  ⟨⟨rfl, (merge_precedence [("Category", "Basics")] [] [] [] []
      [("Category", "Size and Style")] "Category" "Size and Style").1 rfl⟩,
   ⟨rfl, rfl, (merge_precedence [("Category", "Basics")] [] [] []
      [("Category", "Assets")] [] "Category" "Assets").2.1 rfl rfl⟩⟩

/-- Claim C7: every assembled profile contains the Symbol and Url keys and
never contains the "Analyst Report" key, whatever keys the ticker-body rows and
the extractor outputs emitted or overwrote during the merge. -/
theorem profile_invariants (baseUrl ticker tickerUrl : String)
    (rows : List (String × RowCell))
    (profile valuation trading assets classification : Dict) :
    (dlookup (basic_info baseUrl ticker tickerUrl rows profile valuation trading
      assets classification) "Symbol").isSome ∧
    (dlookup (basic_info baseUrl ticker tickerUrl rows profile valuation trading
      assets classification) "Url").isSome ∧
    dlookup (basic_info baseUrl ticker tickerUrl rows profile valuation trading
      assets classification) "Analyst Report" = none := by
  unfold basic_info merge_sections
  refine ⟨?_, ?_, ?_⟩
  · rw [dlookup_dpop_ne _ _ _ (by decide)]
    apply isSome_dlookup_dupdate
    apply isSome_dlookup_dupdate
    apply isSome_dlookup_dupdate
    apply isSome_dlookup_dupdate
    apply isSome_dlookup_dupdate
    apply isSome_dlookup_foldl_dinsert
    simp [dlookup]
  · rw [dlookup_dpop_ne _ _ _ (by decide)]
    apply isSome_dlookup_dupdate
    apply isSome_dlookup_dupdate
    apply isSome_dlookup_dupdate
    apply isSome_dlookup_dupdate
    apply isSome_dlookup_dupdate
    apply isSome_dlookup_foldl_dinsert
    simp [dlookup]
  · exact dlookup_dpop_self _ _

/-- Claim C3: the pagination driver starts at page 1; a run that fetches an
empty page moves to the terminal state, producing nothing and fetching no
further page; a run that fetches a nonempty page produces its normalized rows
as the next output and continues from the incremented page number; and no page
is ever fetched beyond the first empty one. -/
theorem pagination_driver (baseUrl : String)
    (post : Nat → Except TransportErr PageResponse) :
    (∀ fuel : Nat, (get_etfs_run baseUrl post (fuel + 1) 1).2.head? = some 1) ∧
    (∀ fuel page : Nat, scrape_page (post page) = [] →
      get_etfs_run baseUrl post (fuel + 1) page = (.ok [], [page])) ∧
    (∀ (fuel page : Nat) (recs : List CatalogRecord),
      scrape_page (post page) ≠ [] →
      prepare_etfs_list baseUrl (scrape_page (post page)) = .ok recs →
      get_etfs_run baseUrl post (fuel + 1) page =
        ((get_etfs_run baseUrl post fuel (page + 1)).1.map (fun rest => recs :: rest),
          page :: (get_etfs_run baseUrl post fuel (page + 1)).2)) ∧
    (∀ fuel q : Nat, q ∈ (get_etfs_run baseUrl post fuel 1).2 →
      ∀ r, 1 ≤ r → r < q → scrape_page (post r) ≠ []) := by
  refine ⟨?_, ?_, ?_, ?_⟩
  · intro fuel
    unfold get_etfs_run
    by_cases he : (scrape_page (post 1)).isEmpty
    · simp [he]
    · simp only [he]
      cases hp : prepare_etfs_list baseUrl (scrape_page (post 1)) <;> simp [hp, he]
  · intro fuel page h
    unfold get_etfs_run
    simp [h]
  · intro fuel page recs hne hp
    have he : (scrape_page (post page)).isEmpty = false := by
      cases hseq : scrape_page (post page) with
      | nil => exact absurd hseq hne
      | cons a t => rfl
    rw [get_etfs_run]
    simp only [he, Bool.false_eq_true, if_false, hp]
  · exact fun fuel => get_etfs_run_trace_bound baseUrl post fuel 1

theorem pagination_driver_witness :
    ((get_etfs_run "https://etfdb.com" sample_post 3 1).2.head? = some 1) ∧
    (scrape_page (sample_post 2) = [] ∧
      get_etfs_run "https://etfdb.com" sample_post 1 2 = (.ok [], [2])) ∧
    (scrape_page (sample_post 1) ≠ [] ∧
      prepare_etfs_list "https://etfdb.com" (scrape_page (sample_post 1)) =
        .ok [⟨some "SPY", some "SPDR", "https://etfdb.com" ++ "/etf/SPY",
          none, none, none, none⟩] ∧
      get_etfs_run "https://etfdb.com" sample_post 2 1 =
        ((get_etfs_run "https://etfdb.com" sample_post 1 2).1.map
            (fun rest => [(⟨some "SPY", some "SPDR",
              "https://etfdb.com" ++ "/etf/SPY", none, none, none, none⟩ :
                CatalogRecord)] :: rest),
          1 :: (get_etfs_run "https://etfdb.com" sample_post 1 2).2)) ∧
    (2 ∈ (get_etfs_run "https://etfdb.com" sample_post 2 1).2 ∧
      scrape_page (sample_post 1) ≠ []) := by
  refine ⟨?_, ⟨?_, ?_⟩, ⟨?_, ?_, ?_⟩, ⟨?_, ?_⟩⟩
  · exact (pagination_driver "https://etfdb.com" sample_post).1 2
  · rfl
  · exact (pagination_driver "https://etfdb.com" sample_post).2.1 0 2 rfl
  · decide
  · rfl
  · exact (pagination_driver "https://etfdb.com" sample_post).2.2.1 1 1 _
      (by decide) rfl
  · decide
  · exact (pagination_driver "https://etfdb.com" sample_post).2.2.2 2 2
      (by decide) 1 (by decide) (by decide)

end Pyetf
